import Mathlib

/-!
Shallow embedding of the CRUD REST API in this repository
(routes/categorias.routes.js, routes/productos.routes.js,
routes/ingredientes.routes.js, routes/producto_ingrediente.routes.js).

JSON values that can appear in a request body (and as SQL parameters)
are modelled by `Value`; a request body is an association list of keys
to values; the MySQL storage is modelled by an in-memory `DB` holding
the four tables as lists of typed rows.  Each route handler becomes a
pure function from the database, the validated path id, the body and
the server-assigned id/timestamp to a `Response` paired with the new
database.  `express-validator` chains become boolean predicates on the
body (a JSON boolean is `vBool`, a JSON number is `vNum` with a
rational payload, so the float comparisons of the validators are
exact).
-/

namespace PracticaFinalWeb

/-- A JSON / SQL parameter value: null, a number, a string or a boolean. -/
inductive Value where
  | vNull : Value
  | vNum (q : Rat) : Value
  | vStr (s : String) : Value
  | vBool (b : Bool) : Value
deriving DecidableEq, Repr

/-- A request body: JSON object as an association list of keys to values. -/
abbrev Body := List (String × Value)

/-- Field access on a body; `none` models a key that is absent
(JS `bodyData[field] === undefined`). -/
def getField (b : Body) (k : String) : Option Value :=
  b.lookup k

/-- JS truthiness, used by the `value ? 1 : 0` conversions in the routes. -/
def truthy : Value → Bool
  | .vNull => false
  | .vNum q => !(q == 0)
  | .vStr s => !(s == "")
  | .vBool b => b

/-- Interpretation of a SQL parameter in an INTEGER column. -/
def valToInt : Value → Int
  | .vNum q => q.num
  | .vBool b => if b then 1 else 0
  | _ => 0

/-- Interpretation of a SQL parameter in a VARCHAR column. -/
def valToStr : Value → String
  | .vStr s => s
  | _ => ""

/-- Interpretation of a SQL parameter in a DECIMAL column. -/
def valToRat : Value → Rat
  | .vNum q => q
  | .vBool b => if b then 1 else 0
  | _ => 0

/-- Validator `isInt()`: an integral number. -/
def isIntVal : Value → Bool
  | .vNum q => q.den == 1
  | _ => false

/-- Validator `isFloat()`: any number. -/
def isFloatVal : Value → Bool
  | .vNum _ => true
  | _ => false

/-- Validator `isFloat({ gt: 0 })`: a strictly positive number. -/
def isFloatGtZero : Value → Bool
  | .vNum q => decide (0 < q)
  | _ => false

/-- Validator `isString()`. -/
def isStrVal : Value → Bool
  | .vStr _ => true
  | _ => false

/-- Validator chain `isString().notEmpty()`. -/
def isNonEmptyStr : Value → Bool
  | .vStr s => !(s == "")
  | _ => false

/-- Validator `isBoolean()` (a JSON boolean). -/
def isBoolVal : Value → Bool
  | .vBool _ => true
  | _ => false

/-- An `optional()` field rule: absent passes, present must satisfy the rule. -/
def checkOptional (p : Value → Bool) : Option Value → Bool
  | none => true
  | some v => p v

/-- A required field rule: absent fails, present must satisfy the rule. -/
def checkRequired (p : Value → Bool) : Option Value → Bool
  | none => false
  | some v => p v

/-- A row of the `categorias` table. -/
structure Categoria where
  id : Int
  nombre : String
  created_at : Int
  updated_at : Int
deriving DecidableEq, Repr

/-- A row of the `productos` table.  `descripcion` is nullable and
`disponible` is a TINYINT column, both stored as the `Value` that the
driver received. -/
structure Producto where
  id : Int
  categoria_id : Int
  nombre : String
  descripcion : Value
  precio : Rat
  disponible : Value
  created_at : Int
  updated_at : Int
deriving DecidableEq, Repr

/-- A row of the `ingredientes` table. -/
structure Ingrediente where
  id : Int
  nombre : String
  perecedero : Value
  created_at : Int
  updated_at : Int
deriving DecidableEq, Repr

/-- A row of the `producto_ingrediente` junction table. -/
structure ProductoIngrediente where
  id : Int
  producto_id : Int
  ingrediente_id : Int
  cantidad_usada : Rat
  created_at : Int
  updated_at : Int
deriving DecidableEq, Repr

/-- The storage: the four tables. -/
structure DB where
  categorias : List Categoria
  productos : List Producto
  ingredientes : List Ingrediente
  producto_ingrediente : List ProductoIngrediente
deriving DecidableEq, Repr

/-- The uniform JSON envelope together with the HTTP status code:
`res.status(s).json({ ok, message, data })`.  `data := none` models the
`data` key being absent from the JSON (omitted, or set to JS
`undefined`, which JSON serialization drops). -/
structure Response (α : Type) where
  status : Nat
  ok : Bool
  message : String
  data : Option α
deriving DecidableEq, Repr

/-- Insert into a list that is kept sorted by strictly descending key. -/
def insertIdDesc {α : Type} (key : α → Int) (x : α) : List α → List α
  | [] => [x]
  | y :: ys => if key y ≤ key x then x :: y :: ys else y :: insertIdDesc key x ys

/-- The storage semantics of `ORDER BY id DESC`. -/
def sortByIdDesc {α : Type} (key : α → Int) (l : List α) : List α :=
  l.foldr (insertIdDesc key) []

/-- A result row of the product read projection
(`SELECT p.*, c.nombre AS categoria ... JOIN categorias c`). -/
structure ProductoView where
  id : Int
  categoria_id : Int
  categoria : String
  nombre : String
  descripcion : Value
  precio : Rat
  disponible : Value
  created_at : Int
  updated_at : Int
deriving DecidableEq, Repr

/-- A result row of the producto_ingrediente read projection
(joins to `productos` and `ingredientes` for the display labels). -/
structure ProductoIngredienteView where
  id : Int
  producto_id : Int
  producto : String
  ingrediente_id : Int
  ingrediente : String
  cantidad_usada : Rat
  created_at : Int
  updated_at : Int
deriving DecidableEq, Repr

/-- The inner join `JOIN categorias c ON p.categoria_id = c.id`:
a product row joins to the category with matching primary key, and is
dropped when none exists. -/
def productoProjection (db : DB) (p : Producto) : Option ProductoView :=
  (db.categorias.find? (fun c => c.id == p.categoria_id)).map (fun c =>
    { id := p.id, categoria_id := p.categoria_id, categoria := c.nombre,
      nombre := p.nombre, descripcion := p.descripcion, precio := p.precio,
      disponible := p.disponible, created_at := p.created_at,
      updated_at := p.updated_at })

/-- The double inner join of the producto_ingrediente projection. -/
def productoIngredienteProjection (db : DB) (r : ProductoIngrediente) :
    Option ProductoIngredienteView :=
  match db.productos.find? (fun p => p.id == r.producto_id),
        db.ingredientes.find? (fun i => i.id == r.ingrediente_id) with
  | some p, some i =>
      some { id := r.id, producto_id := r.producto_id, producto := p.nombre,
             ingrediente_id := r.ingrediente_id, ingrediente := i.nombre,
             cantidad_usada := r.cantidad_usada, created_at := r.created_at,
             updated_at := r.updated_at }
  | _, _ => none

/-- Shared 400 response of the `handleValidation` middleware.
Modelled from the spec: `routes/validators.js` is not in the sources;
per the Validator contract it short-circuits every request whose
body or path fails a rule with a client error before the handler
(and hence before any storage access) runs. -/
def validationFailed (α : Type) : Response α :=
  { status := 400, ok := false, message := "Datos inválidos", data := none }

/- ===================== categorias ===================== -/

/-- Rules of POST /api/categorias. -/
def validCategoriaCreate (b : Body) : Bool :=
  checkRequired isNonEmptyStr (getField b "nombre")

/-- Rules of PUT /api/categorias/:id. -/
def validCategoriaUpdate (b : Body) : Bool :=
  checkOptional isNonEmptyStr (getField b "nombre")

/-- GET /api/categorias. -/
def listCategorias (db : DB) : Response (List Categoria) :=
  { status := 200, ok := true, message := "Consulta realizada correctamente",
    data := some (sortByIdDesc (fun c => c.id) db.categorias) }

/-- The read projection `SELECT ... FROM categorias WHERE id = ?`. -/
def readCategoria (db : DB) (i : Int) : List Categoria :=
  db.categorias.filter (fun c => c.id == i)

/-- GET /api/categorias/:id. -/
def getCategoriaById (db : DB) (i : Int) : Response Categoria :=
  let rows := readCategoria db i
  if rows.length == 0 then
    { status := 404, ok := false, message := "Categoría no encontrada", data := none }
  else
    { status := 200, ok := true, message := "Consulta realizada correctamente",
      data := rows.head? }

/-- POST /api/categorias.  `newId` is the AUTO_INCREMENT id and `now`
the CURRENT_TIMESTAMP assigned by storage. -/
def createCategoria (db : DB) (b : Body) (newId now : Int) :
    Response Categoria × DB :=
  if validCategoriaCreate b then
    let row : Categoria :=
      { id := newId, nombre := valToStr ((getField b "nombre").getD .vNull),
        created_at := now, updated_at := now }
    let db' : DB := { db with categorias := db.categorias ++ [row] }
    ({ status := 201, ok := true, message := "Categoría creada",
       data := (readCategoria db' newId).head? }, db')
  else (validationFailed Categoria, db)

/-- PUT /api/categorias/:id. -/
def updateCategoria (db : DB) (i : Int) (b : Body) (now : Int) :
    Response Categoria × DB :=
  if validCategoriaUpdate b then
    match getField b "nombre" with
    | none =>
        ({ status := 400, ok := false, message := "Nada para actualizar",
           data := none }, db)
    | some v =>
        let affected := (db.categorias.filter (fun c => c.id == i)).length
        let db' : DB := { db with categorias := db.categorias.map (fun c =>
          if c.id == i then { c with nombre := valToStr v, updated_at := now }
          else c) }
        if affected == 0 then
          ({ status := 404, ok := false, message := "Categoría no encontrada",
             data := none }, db')
        else
          ({ status := 200, ok := true, message := "Categoría actualizada",
             data := (readCategoria db' i).head? }, db')
  else (validationFailed Categoria, db)

/-- DELETE /api/categorias/:id. -/
def deleteCategoria (db : DB) (i : Int) : Response Categoria × DB :=
  let affected := (db.categorias.filter (fun c => c.id == i)).length
  let db' : DB := { db with categorias := db.categorias.filter (fun c => !(c.id == i)) }
  if affected == 0 then
    ({ status := 404, ok := false, message := "Categoría no encontrada",
       data := none }, db')
  else
    ({ status := 200, ok := true, message := "Categoría eliminada",
       data := none }, db')

/- ===================== productos ===================== -/

/-- Rules of POST /api/productos. -/
def validProductoCreate (b : Body) : Bool :=
  checkRequired isIntVal (getField b "categoria_id") &&
  checkRequired isNonEmptyStr (getField b "nombre") &&
  checkRequired isFloatVal (getField b "precio") &&
  checkOptional isStrVal (getField b "descripcion") &&
  checkOptional isBoolVal (getField b "disponible")

/-- Rules of PUT /api/productos/:id. -/
def validProductoUpdate (b : Body) : Bool :=
  checkOptional isIntVal (getField b "categoria_id") &&
  checkOptional isNonEmptyStr (getField b "nombre") &&
  checkOptional isFloatVal (getField b "precio") &&
  checkOptional isStrVal (getField b "descripcion") &&
  checkOptional isBoolVal (getField b "disponible")

/-- The `allowedFields` allow-list of the product update handler. -/
def productoAllowedFields : List String :=
  ["categoria_id", "nombre", "descripcion", "precio", "disponible"]

/-- The `sets`/`values` pairs the product update handler builds: one
entry per allow-listed field present in the body, with the
`boolean -> tinyint` conversion on `disponible`. -/
def productosUpdateSets (b : Body) : List (String × Value) :=
  productoAllowedFields.filterMap (fun f =>
    match getField b f with
    | none => none
    | some v =>
        some (f, if f == "disponible"
                 then .vNum (if truthy v then 1 else 0) else v))

/-- Storage semantics of one `field = ?` assignment of the product
UPDATE statement. -/
def applyProductoSet (r : Producto) (kv : String × Value) : Producto :=
  if kv.1 = "categoria_id" then { r with categoria_id := valToInt kv.2 }
  else if kv.1 = "nombre" then { r with nombre := valToStr kv.2 }
  else if kv.1 = "descripcion" then { r with descripcion := kv.2 }
  else if kv.1 = "precio" then { r with precio := valToRat kv.2 }
  else if kv.1 = "disponible" then { r with disponible := kv.2 }
  else r

/-- Storage semantics of the whole SET clause on a matched row.
Modelled from the spec: the `updated_at` refresh is the server-assigned
timestamp behaviour of the schema (not in the sources); the spec states
that `updated_at` changes on every partial update. -/
def applyProductoSets (now : Int) (r : Producto) (sets : List (String × Value)) :
    Producto :=
  { sets.foldl applyProductoSet r with updated_at := now }

/-- GET /api/productos. -/
def listProductos (db : DB) : Response (List ProductoView) :=
  { status := 200, ok := true, message := "Consulta realizada correctamente",
    data := some ((sortByIdDesc (fun p => p.id) db.productos).filterMap
      (productoProjection db)) }

/-- The product read projection filtered by id. -/
def readProducto (db : DB) (i : Int) : List ProductoView :=
  (db.productos.filter (fun p => p.id == i)).filterMap (productoProjection db)

/-- GET /api/productos/:id. -/
def getProductoById (db : DB) (i : Int) : Response ProductoView :=
  let rows := readProducto db i
  if rows.length == 0 then
    { status := 404, ok := false, message := "Producto no encontrado", data := none }
  else
    { status := 200, ok := true, message := "Consulta realizada correctamente",
      data := rows.head? }

/-- The parameter array passed to the query executor by the product
INSERT: `[categoria_id, nombre, descripcion ?? null, precio,
disponible ?? 1]`. -/
def productoInsertParams (b : Body) : List Value :=
  [ (getField b "categoria_id").getD .vNull,
    (getField b "nombre").getD .vNull,
    (getField b "descripcion").getD .vNull,
    (getField b "precio").getD .vNull,
    (getField b "disponible").getD (.vNum 1) ]

/-- POST /api/productos. -/
def createProducto (db : DB) (b : Body) (newId now : Int) :
    Response ProductoView × DB :=
  if validProductoCreate b then
    let row : Producto :=
      { id := newId,
        categoria_id := valToInt ((getField b "categoria_id").getD .vNull),
        nombre := valToStr ((getField b "nombre").getD .vNull),
        descripcion := (getField b "descripcion").getD .vNull,
        precio := valToRat ((getField b "precio").getD .vNull),
        disponible := (getField b "disponible").getD (.vNum 1),
        created_at := now, updated_at := now }
    let db' : DB := { db with productos := db.productos ++ [row] }
    ({ status := 201, ok := true, message := "Producto creado",
       data := (readProducto db' newId).head? }, db')
  else (validationFailed ProductoView, db)

/-- PUT /api/productos/:id. -/
def updateProducto (db : DB) (i : Int) (b : Body) (now : Int) :
    Response ProductoView × DB :=
  if validProductoUpdate b then
    let sets := productosUpdateSets b
    if sets.length == 0 then
      ({ status := 400, ok := false, message := "Nada para actualizar",
         data := none }, db)
    else
      let affected := (db.productos.filter (fun p => p.id == i)).length
      let db' : DB := { db with productos := db.productos.map (fun p =>
        if p.id == i then applyProductoSets now p sets else p) }
      if affected == 0 then
        ({ status := 404, ok := false, message := "Producto no encontrado",
           data := none }, db')
      else
        ({ status := 200, ok := true, message := "Producto actualizado",
           data := (readProducto db' i).head? }, db')
  else (validationFailed ProductoView, db)

/-- DELETE /api/productos/:id. -/
def deleteProducto (db : DB) (i : Int) : Response ProductoView × DB :=
  let affected := (db.productos.filter (fun p => p.id == i)).length
  let db' : DB := { db with productos := db.productos.filter (fun p => !(p.id == i)) }
  if affected == 0 then
    ({ status := 404, ok := false, message := "Producto no encontrado",
       data := none }, db')
  else
    ({ status := 200, ok := true, message := "Producto eliminado",
       data := none }, db')

/- ===================== ingredientes ===================== -/

/-- Rules of POST /api/ingredientes. -/
def validIngredienteCreate (b : Body) : Bool :=
  checkRequired isNonEmptyStr (getField b "nombre") &&
  checkOptional isBoolVal (getField b "perecedero")

/-- Rules of PUT /api/ingredientes/:id. -/
def validIngredienteUpdate (b : Body) : Bool :=
  checkOptional isNonEmptyStr (getField b "nombre") &&
  checkOptional isBoolVal (getField b "perecedero")

/-- The `sets`/`values` pairs of the ingredient update handler
(two fixed presence checks, with the boolean conversion on
`perecedero`). -/
def ingredientesUpdateSets (b : Body) : List (String × Value) :=
  (match getField b "nombre" with
   | none => []
   | some v => [("nombre", v)]) ++
  (match getField b "perecedero" with
   | none => []
   | some v => [("perecedero", Value.vNum (if truthy v then 1 else 0))])

/-- Storage semantics of one assignment of the ingredient UPDATE. -/
def applyIngredienteSet (r : Ingrediente) (kv : String × Value) : Ingrediente :=
  if kv.1 = "nombre" then { r with nombre := valToStr kv.2 }
  else if kv.1 = "perecedero" then { r with perecedero := kv.2 }
  else r

/-- Storage semantics of the ingredient SET clause on a matched row.
Modelled from the spec: the `updated_at` refresh is the schema's
server-assigned timestamp behaviour (not in the sources). -/
def applyIngredienteSets (now : Int) (r : Ingrediente)
    (sets : List (String × Value)) : Ingrediente :=
  { sets.foldl applyIngredienteSet r with updated_at := now }

/-- GET /api/ingredientes. -/
def listIngredientes (db : DB) : Response (List Ingrediente) :=
  { status := 200, ok := true, message := "Consulta realizada correctamente",
    data := some (sortByIdDesc (fun i => i.id) db.ingredientes) }

/-- The ingredient read projection filtered by id. -/
def readIngrediente (db : DB) (i : Int) : List Ingrediente :=
  db.ingredientes.filter (fun r => r.id == i)

/-- GET /api/ingredientes/:id. -/
def getIngredienteById (db : DB) (i : Int) : Response Ingrediente :=
  let rows := readIngrediente db i
  if rows.length == 0 then
    { status := 404, ok := false, message := "Ingrediente no encontrado", data := none }
  else
    { status := 200, ok := true, message := "Consulta realizada correctamente",
      data := rows.head? }

/-- The parameter array of the ingredient INSERT:
`[nombre, perecedero !== undefined ? (perecedero ? 1 : 0) : 1]`. -/
def ingredienteInsertParams (b : Body) : List Value :=
  [ (getField b "nombre").getD .vNull,
    match getField b "perecedero" with
    | some v => .vNum (if truthy v then 1 else 0)
    | none => .vNum 1 ]

/-- POST /api/ingredientes. -/
def createIngrediente (db : DB) (b : Body) (newId now : Int) :
    Response Ingrediente × DB :=
  if validIngredienteCreate b then
    let row : Ingrediente :=
      { id := newId, nombre := valToStr ((getField b "nombre").getD .vNull),
        perecedero :=
          (match getField b "perecedero" with
           | some v => .vNum (if truthy v then 1 else 0)
           | none => .vNum 1),
        created_at := now, updated_at := now }
    let db' : DB := { db with ingredientes := db.ingredientes ++ [row] }
    ({ status := 201, ok := true, message := "Ingrediente creado",
       data := (readIngrediente db' newId).head? }, db')
  else (validationFailed Ingrediente, db)

/-- PUT /api/ingredientes/:id. -/
def updateIngrediente (db : DB) (i : Int) (b : Body) (now : Int) :
    Response Ingrediente × DB :=
  if validIngredienteUpdate b then
    let sets := ingredientesUpdateSets b
    if sets.length == 0 then
      ({ status := 400, ok := false, message := "Nada para actualizar",
         data := none }, db)
    else
      let affected := (db.ingredientes.filter (fun r => r.id == i)).length
      let db' : DB := { db with ingredientes := db.ingredientes.map (fun r =>
        if r.id == i then applyIngredienteSets now r sets else r) }
      if affected == 0 then
        ({ status := 404, ok := false, message := "Ingrediente no encontrado",
           data := none }, db')
      else
        ({ status := 200, ok := true, message := "Ingrediente actualizado",
           data := (readIngrediente db' i).head? }, db')
  else (validationFailed Ingrediente, db)

/-- DELETE /api/ingredientes/:id. -/
def deleteIngrediente (db : DB) (i : Int) : Response Ingrediente × DB :=
  let affected := (db.ingredientes.filter (fun r => r.id == i)).length
  let db' : DB := { db with ingredientes := db.ingredientes.filter (fun r => !(r.id == i)) }
  if affected == 0 then
    ({ status := 404, ok := false, message := "Ingrediente no encontrado",
       data := none }, db')
  else
    ({ status := 200, ok := true, message := "Ingrediente eliminado",
       data := none }, db')

/- ===================== producto_ingrediente ===================== -/

/-- Rules of POST /api/producto-ingrediente. -/
def validProductoIngredienteCreate (b : Body) : Bool :=
  checkRequired isIntVal (getField b "producto_id") &&
  checkRequired isIntVal (getField b "ingrediente_id") &&
  checkRequired isFloatGtZero (getField b "cantidad_usada")

/-- Rules of PUT /api/producto-ingrediente/:id. -/
def validProductoIngredienteUpdate (b : Body) : Bool :=
  checkOptional isIntVal (getField b "producto_id") &&
  checkOptional isIntVal (getField b "ingrediente_id") &&
  checkOptional isFloatGtZero (getField b "cantidad_usada")

/-- The `sets`/`values` pairs of the producto_ingrediente update
handler (three fixed presence checks). -/
def productoIngredienteUpdateSets (b : Body) : List (String × Value) :=
  (match getField b "producto_id" with
   | none => []
   | some v => [("producto_id", v)]) ++
  (match getField b "ingrediente_id" with
   | none => []
   | some v => [("ingrediente_id", v)]) ++
  (match getField b "cantidad_usada" with
   | none => []
   | some v => [("cantidad_usada", v)])

/-- Storage semantics of one assignment of the producto_ingrediente
UPDATE. -/
def applyProductoIngredienteSet (r : ProductoIngrediente)
    (kv : String × Value) : ProductoIngrediente :=
  if kv.1 = "producto_id" then { r with producto_id := valToInt kv.2 }
  else if kv.1 = "ingrediente_id" then { r with ingrediente_id := valToInt kv.2 }
  else if kv.1 = "cantidad_usada" then { r with cantidad_usada := valToRat kv.2 }
  else r

/-- Storage semantics of the producto_ingrediente SET clause on a
matched row.  Modelled from the spec: the `updated_at` refresh is the
schema's server-assigned timestamp behaviour (not in the sources). -/
def applyProductoIngredienteSets (now : Int) (r : ProductoIngrediente)
    (sets : List (String × Value)) : ProductoIngrediente :=
  { sets.foldl applyProductoIngredienteSet r with updated_at := now }

/-- GET /api/producto-ingrediente. -/
def listProductoIngrediente (db : DB) : Response (List ProductoIngredienteView) :=
  { status := 200, ok := true, message := "Consulta realizada correctamente",
    data := some ((sortByIdDesc (fun r => r.id) db.producto_ingrediente).filterMap
      (productoIngredienteProjection db)) }

/-- The producto_ingrediente read projection filtered by id. -/
def readProductoIngrediente (db : DB) (i : Int) : List ProductoIngredienteView :=
  (db.producto_ingrediente.filter (fun r => r.id == i)).filterMap
    (productoIngredienteProjection db)

/-- GET /api/producto-ingrediente/:id. -/
def getProductoIngredienteById (db : DB) (i : Int) :
    Response ProductoIngredienteView :=
  let rows := readProductoIngrediente db i
  if rows.length == 0 then
    { status := 404, ok := false, message := "Relación no encontrada", data := none }
  else
    { status := 200, ok := true, message := "Consulta realizada correctamente",
      data := rows.head? }

/-- POST /api/producto-ingrediente. -/
def createProductoIngrediente (db : DB) (b : Body) (newId now : Int) :
    Response ProductoIngredienteView × DB :=
  if validProductoIngredienteCreate b then
    let row : ProductoIngrediente :=
      { id := newId,
        producto_id := valToInt ((getField b "producto_id").getD .vNull),
        ingrediente_id := valToInt ((getField b "ingrediente_id").getD .vNull),
        cantidad_usada := valToRat ((getField b "cantidad_usada").getD .vNull),
        created_at := now, updated_at := now }
    let db' : DB := { db with producto_ingrediente := db.producto_ingrediente ++ [row] }
    ({ status := 201, ok := true, message := "Relación creada",
       data := (readProductoIngrediente db' newId).head? }, db')
  else (validationFailed ProductoIngredienteView, db)

/-- PUT /api/producto-ingrediente/:id. -/
def updateProductoIngrediente (db : DB) (i : Int) (b : Body) (now : Int) :
    Response ProductoIngredienteView × DB :=
  if validProductoIngredienteUpdate b then
    let sets := productoIngredienteUpdateSets b
    if sets.length == 0 then
      ({ status := 400, ok := false, message := "Nada para actualizar",
         data := none }, db)
    else
      let affected := (db.producto_ingrediente.filter (fun r => r.id == i)).length
      let db' : DB := { db with producto_ingrediente :=
        db.producto_ingrediente.map (fun r =>
          if r.id == i then applyProductoIngredienteSets now r sets else r) }
      if affected == 0 then
        ({ status := 404, ok := false, message := "Relación no encontrada",
           data := none }, db')
      else
        ({ status := 200, ok := true, message := "Relación actualizada",
           data := (readProductoIngrediente db' i).head? }, db')
  else (validationFailed ProductoIngredienteView, db)

/-- DELETE /api/producto-ingrediente/:id. -/
def deleteProductoIngrediente (db : DB) (i : Int) :
    Response ProductoIngredienteView × DB :=
  let affected := (db.producto_ingrediente.filter (fun r => r.id == i)).length
  let db' : DB := { db with producto_ingrediente :=
    db.producto_ingrediente.filter (fun r => !(r.id == i)) }
  if affected == 0 then
    ({ status := 404, ok := false, message := "Relación no encontrada",
       data := none }, db')
  else
    ({ status := 200, ok := true, message := "Relación eliminada",
       data := none }, db')

/- ===================== concrete fixtures ===================== -/

/-- A well-formed sample database: one category, one product in it,
one ingredient, one junction row. -/
def dbSample : DB :=
  { categorias := [{ id := 1, nombre := "Hamburguesas", created_at := 0, updated_at := 0 }],
    productos := [{ id := 1, categoria_id := 1, nombre := "Cheeseburger",
                    descripcion := .vNull, precio := 91/2, disponible := .vNum 1,
                    created_at := 0, updated_at := 0 }],
    ingredientes := [{ id := 1, nombre := "Queso amarillo", perecedero := .vNum 1,
                       created_at := 0, updated_at := 0 }],
    producto_ingrediente := [{ id := 1, producto_id := 1, ingrediente_id := 1,
                               cantidad_usada := 1/4, created_at := 0, updated_at := 0 }] }

/-- The empty database. -/
def dbEmpty : DB :=
  { categorias := [], productos := [], ingredientes := [], producto_ingrediente := [] }

/-- A database whose single product references a category that does
not exist (dangling foreign key). -/
def dbDangling : DB :=
  { categorias := [],
    productos := [{ id := 1, categoria_id := 5, nombre := "Solo",
                    descripcion := .vNull, precio := 10, disponible := .vNum 1,
                    created_at := 0, updated_at := 0 }],
    ingredientes := [], producto_ingrediente := [] }

/-- The dangling product row of `dbDangling`. -/
def productoDangling : Producto :=
  { id := 1, categoria_id := 5, nombre := "Solo", descripcion := .vNull,
    precio := 10, disponible := .vNum 1, created_at := 0, updated_at := 0 }

/-- A valid product create body that supplies `disponible: false`. -/
def bodyDisponibleFalse : Body :=
  [("categoria_id", .vNum 1), ("nombre", .vStr "Cheeseburger"),
   ("precio", .vNum (91/2)), ("disponible", .vBool false)]

/-- A body containing only keys that no resource recognizes. -/
def bodyUnrecognized : Body :=
  [("foo", .vNum 1), ("bar", .vStr "x")]

/-- A valid producto_ingrediente create body with cantidad 0.25. -/
def bodyCantidadQuarter : Body :=
  [("producto_id", .vNum 1), ("ingrediente_id", .vNum 1),
   ("cantidad_usada", .vNum (1/4))]

/-- A database whose single junction row references a product and an
ingredient that do not exist (dangling foreign keys). -/
def dbDanglingPI : DB :=
  { categorias := [], productos := [], ingredientes := [],
    producto_ingrediente := [{ id := 1, producto_id := 3, ingrediente_id := 4,
                               cantidad_usada := 2, created_at := 0,
                               updated_at := 0 }] }

/-- The dangling junction row of `dbDanglingPI`. -/
def productoIngredienteDangling : ProductoIngrediente :=
  { id := 1, producto_id := 3, ingrediente_id := 4, cantidad_usada := 2,
    created_at := 0, updated_at := 0 }

/- ===================== helper lemmas ===================== -/

theorem insertIdDesc_perm {α : Type} (key : α → Int) (x : α) (l : List α) :
    List.Perm (insertIdDesc key x l) (x :: l) := by
  induction l with
  | nil => simp [insertIdDesc]
  | cons y ys ih =>
    simp only [insertIdDesc]
    split
    · exact List.Perm.refl _
    · exact (List.Perm.cons y ih).trans (List.Perm.swap x y ys)

theorem sortByIdDesc_perm {α : Type} (key : α → Int) (l : List α) :
    List.Perm (sortByIdDesc key l) l := by
  induction l with
  | nil => simp [sortByIdDesc]
  | cons x xs ih =>
    simp only [sortByIdDesc, List.foldr_cons]
    exact (insertIdDesc_perm key x _).trans (List.Perm.cons x ih)

theorem insertIdDesc_sorted {α : Type} (key : α → Int) (x : α) (l : List α)
    (h : l.Sorted (fun a b => key b ≤ key a)) :
    (insertIdDesc key x l).Sorted (fun a b => key b ≤ key a) := by
  induction l with
  | nil => simp [insertIdDesc]
  | cons y ys ih =>
    rw [List.sorted_cons] at h
    simp only [insertIdDesc]
    split
    · next hle =>
      rw [List.sorted_cons]
      refine ⟨?_, List.sorted_cons.mpr h⟩
      intro b hb
      rcases List.mem_cons.mp hb with hb | hb
      · exact hb ▸ hle
      · exact le_trans (h.1 b hb) hle
    · next hgt =>
      rw [List.sorted_cons]
      refine ⟨?_, ih h.2⟩
      intro b hb
      rcases List.mem_cons.mp ((insertIdDesc_perm key x ys).mem_iff.mp hb) with hb' | hb'
      · exact hb' ▸ le_of_lt (lt_of_not_le hgt)
      · exact h.1 b hb'

theorem sortByIdDesc_sorted {α : Type} (key : α → Int) (l : List α) :
    (sortByIdDesc key l).Sorted (fun a b => key b ≤ key a) := by
  induction l with
  | nil => simp [sortByIdDesc]
  | cons x xs ih =>
    simp only [sortByIdDesc, List.foldr_cons]
    exact insertIdDesc_sorted key x _ ih

theorem sorted_filterMap {α β : Type} (f : α → Option β) (ka : α → Int)
    (kb : β → Int) (hk : ∀ a b, f a = some b → kb b = ka a) (l : List α)
    (h : l.Sorted (fun a b => ka b ≤ ka a)) :
    (l.filterMap f).Sorted (fun a b => kb b ≤ kb a) := by
  induction l with
  | nil => simp
  | cons x xs ih =>
    rw [List.sorted_cons] at h
    rw [List.filterMap_cons]
    cases hf : f x with
    | none => exact ih h.2
    | some b =>
      rw [List.sorted_cons]
      refine ⟨?_, ih h.2⟩
      intro c hc
      obtain ⟨a, ha, hfa⟩ := List.mem_filterMap.mp hc
      rw [hk a c hfa, hk x b hf]
      exact h.1 a ha

theorem productoProjection_id {db : DB} {p : Producto} {v : ProductoView}
    (h : productoProjection db p = some v) : v.id = p.id := by
  simp only [productoProjection, Option.map_eq_some'] at h
  obtain ⟨c, _, hc⟩ := h
  rw [← hc]

theorem productoIngredienteProjection_id {db : DB} {r : ProductoIngrediente}
    {v : ProductoIngredienteView}
    (h : productoIngredienteProjection db r = some v) : v.id = r.id := by
  simp only [productoIngredienteProjection] at h
  split at h
  · rw [Option.some_inj] at h
    rw [← h]
  · exact absurd h (by simp)

theorem mem_productosUpdateSets {b : Body} {kv : String × Value}
    (h : kv ∈ productosUpdateSets b) :
    kv.1 ∈ productoAllowedFields ∧ (getField b kv.1).isSome := by
  simp only [productosUpdateSets, List.mem_filterMap] at h
  obtain ⟨f, hf, hsome⟩ := h
  cases hg : getField b f with
  | none => simp [hg] at hsome
  | some v =>
    simp only [hg] at hsome
    rw [Option.some_inj] at hsome
    cases hsome
    exact ⟨hf, by simp [hg]⟩

theorem productosUpdateSets_ne {b : Body} {f : String}
    (habs : getField b f = none) :
    ∀ kv ∈ productosUpdateSets b, kv.1 ≠ f := by
  intro kv hkv heq
  have h2 := (mem_productosUpdateSets hkv).2
  rw [heq, habs] at h2
  exact absurd h2 (by simp)

theorem mem_ingredientesUpdateSets {b : Body} {kv : String × Value}
    (h : kv ∈ ingredientesUpdateSets b) :
    kv.1 ∈ ["nombre", "perecedero"] ∧ (getField b kv.1).isSome := by
  simp only [ingredientesUpdateSets, List.mem_append] at h
  rcases h with h | h
  · cases hg : getField b "nombre" with
    | none => simp [hg] at h
    | some v =>
      simp only [hg, List.mem_singleton] at h
      cases h
      simp [hg]
  · cases hg : getField b "perecedero" with
    | none => simp [hg] at h
    | some v =>
      simp only [hg, List.mem_singleton] at h
      cases h
      simp [hg]

theorem ingredientesUpdateSets_ne {b : Body} {f : String}
    (habs : getField b f = none) :
    ∀ kv ∈ ingredientesUpdateSets b, kv.1 ≠ f := by
  intro kv hkv heq
  have h2 := (mem_ingredientesUpdateSets hkv).2
  rw [heq, habs] at h2
  exact absurd h2 (by simp)

theorem mem_productoIngredienteUpdateSets {b : Body} {kv : String × Value}
    (h : kv ∈ productoIngredienteUpdateSets b) :
    kv.1 ∈ ["producto_id", "ingrediente_id", "cantidad_usada"] ∧
      (getField b kv.1).isSome := by
  simp only [productoIngredienteUpdateSets, List.mem_append] at h
  rcases h with (h | h) | h
  · cases hg : getField b "producto_id" with
    | none => simp [hg] at h
    | some v =>
      simp only [hg, List.mem_singleton] at h
      cases h
      simp [hg]
  · cases hg : getField b "ingrediente_id" with
    | none => simp [hg] at h
    | some v =>
      simp only [hg, List.mem_singleton] at h
      cases h
      simp [hg]
  · cases hg : getField b "cantidad_usada" with
    | none => simp [hg] at h
    | some v =>
      simp only [hg, List.mem_singleton] at h
      cases h
      simp [hg]

theorem productoIngredienteUpdateSets_ne {b : Body} {f : String}
    (habs : getField b f = none) :
    ∀ kv ∈ productoIngredienteUpdateSets b, kv.1 ≠ f := by
  intro kv hkv heq
  have h2 := (mem_productoIngredienteUpdateSets hkv).2
  rw [heq, habs] at h2
  exact absurd h2 (by simp)

theorem productosUpdateSets_fields (b : Body) :
    (productosUpdateSets b).map Prod.fst
      = productoAllowedFields.filter (fun f => (getField b f).isSome) := by
  simp only [productosUpdateSets, productoAllowedFields]
  cases h1 : getField b "categoria_id" <;> cases h2 : getField b "nombre" <;>
    cases h3 : getField b "descripcion" <;> cases h4 : getField b "precio" <;>
      cases h5 : getField b "disponible" <;>
        simp [h1, h2, h3, h4, h5]

theorem ingredientesUpdateSets_fields (b : Body) :
    (ingredientesUpdateSets b).map Prod.fst
      = (["nombre", "perecedero"]).filter (fun f => (getField b f).isSome) := by
  simp only [ingredientesUpdateSets]
  cases h1 : getField b "nombre" <;> cases h2 : getField b "perecedero" <;>
    simp [h1, h2]

theorem productoIngredienteUpdateSets_fields (b : Body) :
    (productoIngredienteUpdateSets b).map Prod.fst
      = (["producto_id", "ingrediente_id", "cantidad_usada"]).filter
          (fun f => (getField b f).isSome) := by
  simp only [productoIngredienteUpdateSets]
  cases h1 : getField b "producto_id" <;> cases h2 : getField b "ingrediente_id" <;>
    cases h3 : getField b "cantidad_usada" <;> simp [h1, h2, h3]

theorem foldl_proj_frame {σ γ : Type} (step : σ → String × Value → σ)
    (proj : σ → γ) (fname : String)
    (hstep : ∀ s kv, kv.1 ≠ fname → proj (step s kv) = proj s) :
    ∀ (sets : List (String × Value)) (s : σ), (∀ kv ∈ sets, kv.1 ≠ fname) →
      proj (sets.foldl step s) = proj s := by
  intro sets
  induction sets with
  | nil => intro s _; rfl
  | cons kv rest ih =>
    intro s h
    rw [List.foldl_cons,
        ih (step s kv) (fun k hk => h k (List.mem_cons_of_mem _ hk)),
        hstep s kv (h kv (List.mem_cons_self _ _))]

theorem foldl_proj_const {σ γ : Type} (step : σ → String × Value → σ)
    (proj : σ → γ) (hstep : ∀ s kv, proj (step s kv) = proj s) :
    ∀ (sets : List (String × Value)) (s : σ), proj (sets.foldl step s) = proj s := by
  intro sets
  induction sets with
  | nil => intro s; rfl
  | cons kv rest ih => intro s; rw [List.foldl_cons, ih (step s kv), hstep s kv]

theorem applyProductoSet_ne_categoria_id (s : Producto) (kv : String × Value)
    (hk : kv.1 ≠ "categoria_id") :
    (applyProductoSet s kv).categoria_id = s.categoria_id := by
  simp only [applyProductoSet]
  split_ifs <;> first | rfl | exact absurd (by assumption) hk

theorem applyProductoSet_ne_nombre (s : Producto) (kv : String × Value)
    (hk : kv.1 ≠ "nombre") :
    (applyProductoSet s kv).nombre = s.nombre := by
  simp only [applyProductoSet]
  split_ifs <;> first | rfl | exact absurd (by assumption) hk

theorem applyProductoSet_ne_descripcion (s : Producto) (kv : String × Value)
    (hk : kv.1 ≠ "descripcion") :
    (applyProductoSet s kv).descripcion = s.descripcion := by
  simp only [applyProductoSet]
  split_ifs <;> first | rfl | exact absurd (by assumption) hk

theorem applyProductoSet_ne_precio (s : Producto) (kv : String × Value)
    (hk : kv.1 ≠ "precio") :
    (applyProductoSet s kv).precio = s.precio := by
  simp only [applyProductoSet]
  split_ifs <;> first | rfl | exact absurd (by assumption) hk

theorem applyProductoSet_ne_disponible (s : Producto) (kv : String × Value)
    (hk : kv.1 ≠ "disponible") :
    (applyProductoSet s kv).disponible = s.disponible := by
  simp only [applyProductoSet]
  split_ifs <;> first | rfl | exact absurd (by assumption) hk

theorem applyProductoSet_id (s : Producto) (kv : String × Value) :
    (applyProductoSet s kv).id = s.id := by
  simp only [applyProductoSet]
  split_ifs <;> rfl

theorem applyIngredienteSet_ne_nombre (s : Ingrediente) (kv : String × Value)
    (hk : kv.1 ≠ "nombre") :
    (applyIngredienteSet s kv).nombre = s.nombre := by
  simp only [applyIngredienteSet]
  split_ifs <;> first | rfl | exact absurd (by assumption) hk

theorem applyIngredienteSet_ne_perecedero (s : Ingrediente) (kv : String × Value)
    (hk : kv.1 ≠ "perecedero") :
    (applyIngredienteSet s kv).perecedero = s.perecedero := by
  simp only [applyIngredienteSet]
  split_ifs <;> first | rfl | exact absurd (by assumption) hk

theorem applyIngredienteSet_id (s : Ingrediente) (kv : String × Value) :
    (applyIngredienteSet s kv).id = s.id := by
  simp only [applyIngredienteSet]
  split_ifs <;> rfl

theorem applyProductoIngredienteSet_ne_producto_id (s : ProductoIngrediente)
    (kv : String × Value) (hk : kv.1 ≠ "producto_id") :
    (applyProductoIngredienteSet s kv).producto_id = s.producto_id := by
  simp only [applyProductoIngredienteSet]
  split_ifs <;> first | rfl | exact absurd (by assumption) hk

theorem applyProductoIngredienteSet_ne_ingrediente_id (s : ProductoIngrediente)
    (kv : String × Value) (hk : kv.1 ≠ "ingrediente_id") :
    (applyProductoIngredienteSet s kv).ingrediente_id = s.ingrediente_id := by
  simp only [applyProductoIngredienteSet]
  split_ifs <;> first | rfl | exact absurd (by assumption) hk

theorem applyProductoIngredienteSet_ne_cantidad_usada (s : ProductoIngrediente)
    (kv : String × Value) (hk : kv.1 ≠ "cantidad_usada") :
    (applyProductoIngredienteSet s kv).cantidad_usada = s.cantidad_usada := by
  simp only [applyProductoIngredienteSet]
  split_ifs <;> first | rfl | exact absurd (by assumption) hk

theorem applyProductoIngredienteSet_id (s : ProductoIngrediente)
    (kv : String × Value) :
    (applyProductoIngredienteSet s kv).id = s.id := by
  simp only [applyProductoIngredienteSet]
  split_ifs <;> rfl

theorem applyProductoSets_id (now : Int) (r : Producto)
    (sets : List (String × Value)) :
    (applyProductoSets now r sets).id = r.id :=
  foldl_proj_const applyProductoSet (fun p => p.id) applyProductoSet_id sets r

theorem applyProductoSets_frame_categoria_id (now : Int) (r : Producto) (b : Body)
    (h : getField b "categoria_id" = none) :
    (applyProductoSets now r (productosUpdateSets b)).categoria_id
      = r.categoria_id :=
  foldl_proj_frame applyProductoSet (fun p => p.categoria_id) "categoria_id"
    applyProductoSet_ne_categoria_id (productosUpdateSets b) r
    (productosUpdateSets_ne h)

theorem applyProductoSets_frame_nombre (now : Int) (r : Producto) (b : Body)
    (h : getField b "nombre" = none) :
    (applyProductoSets now r (productosUpdateSets b)).nombre = r.nombre :=
  foldl_proj_frame applyProductoSet (fun p => p.nombre) "nombre"
    applyProductoSet_ne_nombre (productosUpdateSets b) r (productosUpdateSets_ne h)

theorem applyProductoSets_frame_descripcion (now : Int) (r : Producto) (b : Body)
    (h : getField b "descripcion" = none) :
    (applyProductoSets now r (productosUpdateSets b)).descripcion = r.descripcion :=
  foldl_proj_frame applyProductoSet (fun p => p.descripcion) "descripcion"
    applyProductoSet_ne_descripcion (productosUpdateSets b) r
    (productosUpdateSets_ne h)

theorem applyProductoSets_frame_precio (now : Int) (r : Producto) (b : Body)
    (h : getField b "precio" = none) :
    (applyProductoSets now r (productosUpdateSets b)).precio = r.precio :=
  foldl_proj_frame applyProductoSet (fun p => p.precio) "precio"
    applyProductoSet_ne_precio (productosUpdateSets b) r (productosUpdateSets_ne h)

theorem applyProductoSets_frame_disponible (now : Int) (r : Producto) (b : Body)
    (h : getField b "disponible" = none) :
    (applyProductoSets now r (productosUpdateSets b)).disponible = r.disponible :=
  foldl_proj_frame applyProductoSet (fun p => p.disponible) "disponible"
    applyProductoSet_ne_disponible (productosUpdateSets b) r
    (productosUpdateSets_ne h)

theorem applyIngredienteSets_id (now : Int) (r : Ingrediente)
    (sets : List (String × Value)) :
    (applyIngredienteSets now r sets).id = r.id :=
  foldl_proj_const applyIngredienteSet (fun s => s.id) applyIngredienteSet_id sets r

theorem applyIngredienteSets_frame_nombre (now : Int) (r : Ingrediente) (b : Body)
    (h : getField b "nombre" = none) :
    (applyIngredienteSets now r (ingredientesUpdateSets b)).nombre = r.nombre :=
  foldl_proj_frame applyIngredienteSet (fun s => s.nombre) "nombre"
    applyIngredienteSet_ne_nombre (ingredientesUpdateSets b) r
    (ingredientesUpdateSets_ne h)

theorem applyIngredienteSets_frame_perecedero (now : Int) (r : Ingrediente)
    (b : Body) (h : getField b "perecedero" = none) :
    (applyIngredienteSets now r (ingredientesUpdateSets b)).perecedero
      = r.perecedero :=
  foldl_proj_frame applyIngredienteSet (fun s => s.perecedero) "perecedero"
    applyIngredienteSet_ne_perecedero (ingredientesUpdateSets b) r
    (ingredientesUpdateSets_ne h)

theorem applyProductoIngredienteSets_id (now : Int) (r : ProductoIngrediente)
    (sets : List (String × Value)) :
    (applyProductoIngredienteSets now r sets).id = r.id :=
  foldl_proj_const applyProductoIngredienteSet (fun s => s.id)
    applyProductoIngredienteSet_id sets r

theorem applyProductoIngredienteSets_frame_producto_id (now : Int)
    (r : ProductoIngrediente) (b : Body) (h : getField b "producto_id" = none) :
    (applyProductoIngredienteSets now r
        (productoIngredienteUpdateSets b)).producto_id = r.producto_id :=
  foldl_proj_frame applyProductoIngredienteSet (fun s => s.producto_id)
    "producto_id" applyProductoIngredienteSet_ne_producto_id
    (productoIngredienteUpdateSets b) r (productoIngredienteUpdateSets_ne h)

theorem applyProductoIngredienteSets_frame_ingrediente_id (now : Int)
    (r : ProductoIngrediente) (b : Body) (h : getField b "ingrediente_id" = none) :
    (applyProductoIngredienteSets now r
        (productoIngredienteUpdateSets b)).ingrediente_id = r.ingrediente_id :=
  foldl_proj_frame applyProductoIngredienteSet (fun s => s.ingrediente_id)
    "ingrediente_id" applyProductoIngredienteSet_ne_ingrediente_id
    (productoIngredienteUpdateSets b) r (productoIngredienteUpdateSets_ne h)

theorem applyProductoIngredienteSets_frame_cantidad_usada (now : Int)
    (r : ProductoIngrediente) (b : Body) (h : getField b "cantidad_usada" = none) :
    (applyProductoIngredienteSets now r
        (productoIngredienteUpdateSets b)).cantidad_usada = r.cantidad_usada :=
  foldl_proj_frame applyProductoIngredienteSet (fun s => s.cantidad_usada)
    "cantidad_usada" applyProductoIngredienteSet_ne_cantidad_usada
    (productoIngredienteUpdateSets b) r (productoIngredienteUpdateSets_ne h)

theorem updateProducto_db_shape (db : DB) (i : Int) (b : Body) (now : Int) :
    ((updateProducto db i b now).2).productos = db.productos ∨
    ((updateProducto db i b now).2).productos
      = db.productos.map (fun p =>
          if p.id == i then applyProductoSets now p (productosUpdateSets b)
          else p) := by
  simp only [updateProducto]
  split
  · split
    · left; rfl
    · split
      · right; rfl
      · right; rfl
  · left; rfl

theorem updateIngrediente_db_shape (db : DB) (i : Int) (b : Body) (now : Int) :
    ((updateIngrediente db i b now).2).ingredientes = db.ingredientes ∨
    ((updateIngrediente db i b now).2).ingredientes
      = db.ingredientes.map (fun r =>
          if r.id == i then applyIngredienteSets now r (ingredientesUpdateSets b)
          else r) := by
  simp only [updateIngrediente]
  split
  · split
    · left; rfl
    · split
      · right; rfl
      · right; rfl
  · left; rfl

theorem updateProductoIngrediente_db_shape (db : DB) (i : Int) (b : Body)
    (now : Int) :
    ((updateProductoIngrediente db i b now).2).producto_ingrediente
      = db.producto_ingrediente ∨
    ((updateProductoIngrediente db i b now).2).producto_ingrediente
      = db.producto_ingrediente.map (fun r =>
          if r.id == i then
            applyProductoIngredienteSets now r (productoIngredienteUpdateSets b)
          else r) := by
  simp only [updateProductoIngrediente]
  split
  · split
    · left; rfl
    · split
      · right; rfl
      · right; rfl
  · left; rfl

theorem updateCategoria_db_shape (db : DB) (i : Int) (b : Body) (now : Int) :
    ((updateCategoria db i b now).2).categorias = db.categorias ∨
    ∃ v, ((updateCategoria db i b now).2).categorias
      = db.categorias.map (fun c =>
          if c.id == i then { c with nombre := valToStr v, updated_at := now }
          else c) := by
  simp only [updateCategoria]
  split
  · split
    · left; rfl
    · next v _ =>
      split
      · exact Or.inr ⟨v, rfl⟩
      · exact Or.inr ⟨v, rfl⟩
  · left; rfl

/- ===================== claims ===================== -/

/-- C1: for every resource, a Partial Update request whose body contains
none of that resource's updatable fields (empty body or only
unrecognized keys) returns the 400 "Nada para actualizar" outcome and
returns before any storage query, so the database is unchanged. -/
theorem claim_C1 (db : DB) (i now : Int) :
    (∀ b : Body, getField b "nombre" = none →
        updateCategoria db i b now
          = (⟨400, false, "Nada para actualizar", none⟩, db)) ∧
    (∀ b : Body, getField b "categoria_id" = none → getField b "nombre" = none →
        getField b "descripcion" = none → getField b "precio" = none →
        getField b "disponible" = none →
        updateProducto db i b now
          = (⟨400, false, "Nada para actualizar", none⟩, db)) ∧
    (∀ b : Body, getField b "nombre" = none → getField b "perecedero" = none →
        updateIngrediente db i b now
          = (⟨400, false, "Nada para actualizar", none⟩, db)) ∧
    (∀ b : Body, getField b "producto_id" = none →
        getField b "ingrediente_id" = none → getField b "cantidad_usada" = none →
        updateProductoIngrediente db i b now
          = (⟨400, false, "Nada para actualizar", none⟩, db)) := by
  refine ⟨?_, ?_, ?_, ?_⟩
  · intro b h
    simp [updateCategoria, validCategoriaUpdate, checkOptional, h]
  · intro b h1 h2 h3 h4 h5
    simp [updateProducto, validProductoUpdate, checkOptional, productosUpdateSets,
      productoAllowedFields, h1, h2, h3, h4, h5]
  · intro b h1 h2
    simp [updateIngrediente, validIngredienteUpdate, checkOptional,
      ingredientesUpdateSets, h1, h2]
  · intro b h1 h2 h3
    simp [updateProductoIngrediente, validProductoIngredienteUpdate, checkOptional,
      productoIngredienteUpdateSets, h1, h2, h3]

/-- Witness for C1 at a concrete database and a body holding only
unrecognized keys. -/
theorem claim_C1_witness :
    updateCategoria dbSample 1 bodyUnrecognized 5
        = (⟨400, false, "Nada para actualizar", none⟩, dbSample) ∧
    updateProducto dbSample 1 bodyUnrecognized 5
        = (⟨400, false, "Nada para actualizar", none⟩, dbSample) ∧
    updateIngrediente dbSample 1 bodyUnrecognized 5
        = (⟨400, false, "Nada para actualizar", none⟩, dbSample) ∧
    updateProductoIngrediente dbSample 1 bodyUnrecognized 5
        = (⟨400, false, "Nada para actualizar", none⟩, dbSample) :=
  ⟨(claim_C1 dbSample 1 5).1 bodyUnrecognized rfl,
   (claim_C1 dbSample 1 5).2.1 bodyUnrecognized rfl rfl rfl rfl rfl,
   (claim_C1 dbSample 1 5).2.2.1 bodyUnrecognized rfl rfl,
   (claim_C1 dbSample 1 5).2.2.2 bodyUnrecognized rfl rfl rfl⟩

/-- C5: for every resource, a Partial Update whose UPDATE matched zero
rows and a Delete whose DELETE matched zero rows answer 404, and a
Delete that matched a row answers 200 with only a confirmation message
and no data. -/
theorem claim_C5 (db : DB) (i now : Int) :
    (∀ b v, validCategoriaUpdate b = true → getField b "nombre" = some v →
        db.categorias.filter (fun c => c.id == i) = [] →
        (updateCategoria db i b now).1.status = 404) ∧
    (∀ b, validProductoUpdate b = true → productosUpdateSets b ≠ [] →
        db.productos.filter (fun p => p.id == i) = [] →
        (updateProducto db i b now).1.status = 404) ∧
    (∀ b, validIngredienteUpdate b = true → ingredientesUpdateSets b ≠ [] →
        db.ingredientes.filter (fun r => r.id == i) = [] →
        (updateIngrediente db i b now).1.status = 404) ∧
    (∀ b, validProductoIngredienteUpdate b = true →
        productoIngredienteUpdateSets b ≠ [] →
        db.producto_ingrediente.filter (fun r => r.id == i) = [] →
        (updateProductoIngrediente db i b now).1.status = 404) ∧
    (db.categorias.filter (fun c => c.id == i) = [] →
        (deleteCategoria db i).1.status = 404) ∧
    (db.productos.filter (fun p => p.id == i) = [] →
        (deleteProducto db i).1.status = 404) ∧
    (db.ingredientes.filter (fun r => r.id == i) = [] →
        (deleteIngrediente db i).1.status = 404) ∧
    (db.producto_ingrediente.filter (fun r => r.id == i) = [] →
        (deleteProductoIngrediente db i).1.status = 404) ∧
    (db.categorias.filter (fun c => c.id == i) ≠ [] →
        (deleteCategoria db i).1 = ⟨200, true, "Categoría eliminada", none⟩) ∧
    (db.productos.filter (fun p => p.id == i) ≠ [] →
        (deleteProducto db i).1 = ⟨200, true, "Producto eliminado", none⟩) ∧
    (db.ingredientes.filter (fun r => r.id == i) ≠ [] →
        (deleteIngrediente db i).1 = ⟨200, true, "Ingrediente eliminado", none⟩) ∧
    (db.producto_ingrediente.filter (fun r => r.id == i) ≠ [] →
        (deleteProductoIngrediente db i).1 = ⟨200, true, "Relación eliminada", none⟩) := by
  refine ⟨?_, ?_, ?_, ?_, ?_, ?_, ?_, ?_, ?_, ?_, ?_, ?_⟩
  · intro b v hv hn hemp
    simp [updateCategoria, hv, hn, hemp]
  · intro b hv hne hemp
    simp [updateProducto, hv, List.length_eq_zero, hne, hemp]
  · intro b hv hne hemp
    simp [updateIngrediente, hv, List.length_eq_zero, hne, hemp]
  · intro b hv hne hemp
    simp [updateProductoIngrediente, hv, List.length_eq_zero, hne, hemp]
  · intro hemp
    simp [deleteCategoria, hemp]
  · intro hemp
    simp [deleteProducto, hemp]
  · intro hemp
    simp [deleteIngrediente, hemp]
  · intro hemp
    simp [deleteProductoIngrediente, hemp]
  · intro hne
    simp [deleteCategoria, List.length_eq_zero, hne]
  · intro hne
    simp [deleteProducto, List.length_eq_zero, hne]
  · intro hne
    simp [deleteIngrediente, List.length_eq_zero, hne]
  · intro hne
    simp [deleteProductoIngrediente, List.length_eq_zero, hne]

/-- Witness for C5 at concrete inputs: id 9 matches nothing in the
sample database, id 1 matches one row. -/
theorem claim_C5_witness :
    (updateCategoria dbSample 9 [("nombre", Value.vStr "Tacos")] 5).1.status = 404 ∧
    (deleteProducto dbSample 9).1.status = 404 ∧
    (deleteCategoria dbSample 1).1 = ⟨200, true, "Categoría eliminada", none⟩ :=
  ⟨(claim_C5 dbSample 9 5).1 [("nombre", Value.vStr "Tacos")] (Value.vStr "Tacos")
      rfl rfl rfl,
   (claim_C5 dbSample 9 5).2.2.2.2.2.1 rfl,
   (claim_C5 dbSample 1 5).2.2.2.2.2.2.2.2.1 (by decide)⟩

/-- C6: for every resource, Get-by-id with a validated integer id is the
404 outcome exactly when the filtered read projection yields zero rows,
and otherwise a 200 success whose data is the first (single) projected
row, joined display labels included. -/
theorem claim_C6 (db : DB) (i : Int) :
    ((getCategoriaById db i).status = 404 ↔ readCategoria db i = []) ∧
    (∀ r rest, readCategoria db i = r :: rest →
        getCategoriaById db i
          = ⟨200, true, "Consulta realizada correctamente", some r⟩) ∧
    ((getProductoById db i).status = 404 ↔ readProducto db i = []) ∧
    (∀ r rest, readProducto db i = r :: rest →
        getProductoById db i
          = ⟨200, true, "Consulta realizada correctamente", some r⟩) ∧
    ((getIngredienteById db i).status = 404 ↔ readIngrediente db i = []) ∧
    (∀ r rest, readIngrediente db i = r :: rest →
        getIngredienteById db i
          = ⟨200, true, "Consulta realizada correctamente", some r⟩) ∧
    ((getProductoIngredienteById db i).status = 404 ↔
        readProductoIngrediente db i = []) ∧
    (∀ r rest, readProductoIngrediente db i = r :: rest →
        getProductoIngredienteById db i
          = ⟨200, true, "Consulta realizada correctamente", some r⟩) := by
  refine ⟨?_, ?_, ?_, ?_, ?_, ?_, ?_, ?_⟩
  · cases h : readCategoria db i <;> simp [getCategoriaById, h]
  · intro r rest h
    simp [getCategoriaById, h]
  · cases h : readProducto db i <;> simp [getProductoById, h]
  · intro r rest h
    simp [getProductoById, h]
  · cases h : readIngrediente db i <;> simp [getIngredienteById, h]
  · intro r rest h
    simp [getIngredienteById, h]
  · cases h : readProductoIngrediente db i <;>
      simp [getProductoIngredienteById, h]
  · intro r rest h
    simp [getProductoIngredienteById, h]

/-- Witness for C6: in the sample database id 1 resolves (with its
joined labels), id 9 does not. -/
theorem claim_C6_witness :
    ((getProductoById dbSample 9).status = 404 ↔ readProducto dbSample 9 = []) ∧
    getProductoIngredienteById dbSample 1
      = ⟨200, true, "Consulta realizada correctamente",
         some { id := 1, producto_id := 1, producto := "Cheeseburger",
                ingrediente_id := 1, ingrediente := "Queso amarillo",
                cantidad_usada := 1/4, created_at := 0, updated_at := 0 }⟩ :=
  ⟨(claim_C6 dbSample 9).2.2.1,
   (claim_C6 dbSample 1).2.2.2.2.2.2.2
     { id := 1, producto_id := 1, producto := "Cheeseburger",
       ingrediente_id := 1, ingrediente := "Queso amarillo",
       cantidad_usada := 1/4, created_at := 0, updated_at := 0 } [] rfl⟩

/-- C2 counterexample: Create for Product with `disponible: false`
passes validation, yet the fifth INSERT parameter handed to the query
executor is the raw boolean `false` — `disponible ?? 1` only substitutes
absent values and performs no 0/1 coercion, so the claim that every
boolean supplied to a write is coerced to 0 or 1 before reaching the
query executor fails at this input. -/
theorem claim_C2_counterexample :
    validProductoCreate bodyDisponibleFalse = true ∧
    productoInsertParams bodyDisponibleFalse =
      [Value.vNum 1, Value.vStr "Cheeseburger", Value.vNull,
       Value.vNum (91/2), Value.vBool false] ∧
    Value.vBool false ≠ Value.vNum 0 ∧ Value.vBool false ≠ Value.vNum 1 := by
  refine ⟨by decide, rfl, by decide, by decide⟩

/-- C2 amended: the Partial Update handlers of Product and Ingredient
and the Ingredient Create handler coerce a supplied boolean to 0/1
before passing it to the query executor; Product Create instead passes
the supplied boolean through unchanged (`?? 1` only substitutes the
default when the field is absent). -/
theorem claim_C2_amended :
    (∀ (b : Body) (bl : Bool), getField b "disponible" = some (.vBool bl) →
        ("disponible", Value.vNum (if bl then 1 else 0)) ∈ productosUpdateSets b) ∧
    (∀ (b : Body) (bl : Bool), getField b "perecedero" = some (.vBool bl) →
        ("perecedero", Value.vNum (if bl then 1 else 0)) ∈ ingredientesUpdateSets b) ∧
    (∀ (b : Body) (bl : Bool), getField b "perecedero" = some (.vBool bl) →
        (ingredienteInsertParams b).get? 1
          = some (Value.vNum (if bl then 1 else 0))) ∧
    (∀ (b : Body) (bl : Bool), getField b "disponible" = some (.vBool bl) →
        (productoInsertParams b).get? 4 = some (Value.vBool bl)) := by
  refine ⟨?_, ?_, ?_, ?_⟩
  · intro b bl h
    simp only [productosUpdateSets, List.mem_filterMap]
    refine ⟨"disponible", by simp [productoAllowedFields], ?_⟩
    simp [h, truthy]
  · intro b bl h
    simp [ingredientesUpdateSets, h, truthy]
  · intro b bl h
    simp [ingredienteInsertParams, h, truthy]
  · intro b bl h
    simp [productoInsertParams, h]

/-- Witness for the amended C2 at `disponible: false`: the update SET
pair is the coerced 0, the create INSERT parameter is the raw boolean. -/
theorem claim_C2_amended_witness :
    ("disponible", Value.vNum 0) ∈ productosUpdateSets bodyDisponibleFalse ∧
    (productoInsertParams bodyDisponibleFalse).get? 4
      = some (Value.vBool false) := by
  constructor
  · simpa using claim_C2_amended.1 bodyDisponibleFalse false rfl
  · exact claim_C2_amended.2.2.2 bodyDisponibleFalse false rfl

/-- C8: producto_ingrediente Create rejects a `cantidad_usada` of zero
or negative with a validation failure before any storage call, Partial
Update does the same when the field is present, and the strictly
positive 0.25 passes validation and is created. -/
theorem claim_C8 (db : DB) (i newId now : Int) :
    (∀ (b : Body) (q : Rat), getField b "cantidad_usada" = some (.vNum q) →
        q ≤ 0 →
        createProductoIngrediente db b newId now
          = (validationFailed ProductoIngredienteView, db)) ∧
    (∀ (b : Body) (q : Rat), getField b "cantidad_usada" = some (.vNum q) →
        q ≤ 0 →
        updateProductoIngrediente db i b now
          = (validationFailed ProductoIngredienteView, db)) ∧
    validProductoIngredienteCreate bodyCantidadQuarter = true ∧
    (createProductoIngrediente db bodyCantidadQuarter newId now).1.status = 201 := by
  have hval : validProductoIngredienteCreate bodyCantidadQuarter = true := by
    have h1 : getField bodyCantidadQuarter "producto_id" = some (.vNum 1) := rfl
    have h2 : getField bodyCantidadQuarter "ingrediente_id" = some (.vNum 1) := rfl
    have h3 : getField bodyCantidadQuarter "cantidad_usada" = some (.vNum (1/4)) := rfl
    simp only [validProductoIngredienteCreate, h1, h2, h3, checkRequired,
      isIntVal, isFloatGtZero, Bool.and_eq_true, beq_iff_eq, decide_eq_true_eq]
    norm_num
  refine ⟨?_, ?_, hval, ?_⟩
  · intro b q h hq
    simp [createProductoIngrediente, validProductoIngredienteCreate, checkRequired,
      h, isFloatGtZero, hq.not_lt]
  · intro b q h hq
    simp [updateProductoIngrediente, validProductoIngredienteUpdate, checkOptional,
      h, isFloatGtZero, hq.not_lt]
  · simp [createProductoIngrediente, hval]

/-- Witness for C8: `cantidad_usada: 0` is rejected, 0.25 is created. -/
theorem claim_C8_witness :
    createProductoIngrediente dbSample
        [("producto_id", Value.vNum 1), ("ingrediente_id", Value.vNum 1),
         ("cantidad_usada", Value.vNum 0)] 2 5
      = (validationFailed ProductoIngredienteView, dbSample) ∧
    (createProductoIngrediente dbSample bodyCantidadQuarter 2 5).1.status = 201 :=
  ⟨(claim_C8 dbSample 1 2 5).1 _ 0 rfl le_rfl,
   (claim_C8 dbSample 1 2 5).2.2.2⟩

/-- C9: every field name interpolated into a generated SET clause is
drawn from the resource's static allow-list, whatever keys the body
contains. -/
theorem claim_C9 :
    (∀ (b : Body) (kv : String × Value), kv ∈ productosUpdateSets b →
        kv.1 ∈ productoAllowedFields) ∧
    (∀ (b : Body) (kv : String × Value), kv ∈ ingredientesUpdateSets b →
        kv.1 ∈ ["nombre", "perecedero"]) ∧
    (∀ (b : Body) (kv : String × Value), kv ∈ productoIngredienteUpdateSets b →
        kv.1 ∈ ["producto_id", "ingrediente_id", "cantidad_usada"]) :=
  ⟨fun _ _ h => (mem_productosUpdateSets h).1,
   fun _ _ h => (mem_ingredientesUpdateSets h).1,
   fun _ _ h => (mem_productoIngredienteUpdateSets h).1⟩

/-- Witness for C9 on a body that mixes a recognized field with an
unrecognized key. -/
theorem claim_C9_witness :
    ("categoria_id" : String) ∈ productoAllowedFields :=
  claim_C9.1 [("categoria_id", Value.vNum 2), ("evil", Value.vStr "x")]
    ("categoria_id", Value.vNum 2) (by decide)

/-- C3: for every Partial Update, the generated SET clause lists exactly
the recognized fields present in the body (in allow-list order), and
after the update every stored row descends from a prior row with all
body-absent data fields unchanged (the id as well); hence absent fields
keep their prior values. -/
theorem claim_C3 :
    (∀ b : Body, (productosUpdateSets b).map Prod.fst
        = productoAllowedFields.filter (fun f => (getField b f).isSome)) ∧
    (∀ b : Body, (ingredientesUpdateSets b).map Prod.fst
        = (["nombre", "perecedero"]).filter (fun f => (getField b f).isSome)) ∧
    (∀ b : Body, (productoIngredienteUpdateSets b).map Prod.fst
        = (["producto_id", "ingrediente_id", "cantidad_usada"]).filter
            (fun f => (getField b f).isSome)) ∧
    (∀ (db : DB) (i now : Int) (b : Body),
        ∀ r' ∈ ((updateProducto db i b now).2).productos,
          ∃ r ∈ db.productos, r'.id = r.id ∧
            (getField b "categoria_id" = none → r'.categoria_id = r.categoria_id) ∧
            (getField b "nombre" = none → r'.nombre = r.nombre) ∧
            (getField b "descripcion" = none → r'.descripcion = r.descripcion) ∧
            (getField b "precio" = none → r'.precio = r.precio) ∧
            (getField b "disponible" = none → r'.disponible = r.disponible)) ∧
    (∀ (db : DB) (i now : Int) (b : Body),
        ∀ r' ∈ ((updateIngrediente db i b now).2).ingredientes,
          ∃ r ∈ db.ingredientes, r'.id = r.id ∧
            (getField b "nombre" = none → r'.nombre = r.nombre) ∧
            (getField b "perecedero" = none → r'.perecedero = r.perecedero)) ∧
    (∀ (db : DB) (i now : Int) (b : Body),
        ∀ r' ∈ ((updateProductoIngrediente db i b now).2).producto_ingrediente,
          ∃ r ∈ db.producto_ingrediente, r'.id = r.id ∧
            (getField b "producto_id" = none → r'.producto_id = r.producto_id) ∧
            (getField b "ingrediente_id" = none →
              r'.ingrediente_id = r.ingrediente_id) ∧
            (getField b "cantidad_usada" = none →
              r'.cantidad_usada = r.cantidad_usada)) ∧
    (∀ (db : DB) (i now : Int) (b : Body),
        ∀ r' ∈ ((updateCategoria db i b now).2).categorias,
          ∃ r ∈ db.categorias, r'.id = r.id ∧ r'.created_at = r.created_at) := by
  refine ⟨productosUpdateSets_fields, ingredientesUpdateSets_fields,
    productoIngredienteUpdateSets_fields, ?_, ?_, ?_, ?_⟩
  · intro db i now b r' hr'
    rcases updateProducto_db_shape db i b now with hs | hs
    · rw [hs] at hr'
      exact ⟨r', hr', rfl, fun _ => rfl, fun _ => rfl, fun _ => rfl,
        fun _ => rfl, fun _ => rfl⟩
    · rw [hs] at hr'
      obtain ⟨r0, hr0, heq⟩ := List.mem_map.mp hr'
      by_cases hid : (r0.id == i) = true
      · rw [if_pos hid] at heq
        subst heq
        exact ⟨r0, hr0, applyProductoSets_id now r0 _,
          fun h => applyProductoSets_frame_categoria_id now r0 b h,
          fun h => applyProductoSets_frame_nombre now r0 b h,
          fun h => applyProductoSets_frame_descripcion now r0 b h,
          fun h => applyProductoSets_frame_precio now r0 b h,
          fun h => applyProductoSets_frame_disponible now r0 b h⟩
      · rw [if_neg hid] at heq
        subst heq
        exact ⟨r0, hr0, rfl, fun _ => rfl, fun _ => rfl, fun _ => rfl,
          fun _ => rfl, fun _ => rfl⟩
  · intro db i now b r' hr'
    rcases updateIngrediente_db_shape db i b now with hs | hs
    · rw [hs] at hr'
      exact ⟨r', hr', rfl, fun _ => rfl, fun _ => rfl⟩
    · rw [hs] at hr'
      obtain ⟨r0, hr0, heq⟩ := List.mem_map.mp hr'
      by_cases hid : (r0.id == i) = true
      · rw [if_pos hid] at heq
        subst heq
        exact ⟨r0, hr0, applyIngredienteSets_id now r0 _,
          fun h => applyIngredienteSets_frame_nombre now r0 b h,
          fun h => applyIngredienteSets_frame_perecedero now r0 b h⟩
      · rw [if_neg hid] at heq
        subst heq
        exact ⟨r0, hr0, rfl, fun _ => rfl, fun _ => rfl⟩
  · intro db i now b r' hr'
    rcases updateProductoIngrediente_db_shape db i b now with hs | hs
    · rw [hs] at hr'
      exact ⟨r', hr', rfl, fun _ => rfl, fun _ => rfl, fun _ => rfl⟩
    · rw [hs] at hr'
      obtain ⟨r0, hr0, heq⟩ := List.mem_map.mp hr'
      by_cases hid : (r0.id == i) = true
      · rw [if_pos hid] at heq
        subst heq
        exact ⟨r0, hr0, applyProductoIngredienteSets_id now r0 _,
          fun h => applyProductoIngredienteSets_frame_producto_id now r0 b h,
          fun h => applyProductoIngredienteSets_frame_ingrediente_id now r0 b h,
          fun h => applyProductoIngredienteSets_frame_cantidad_usada now r0 b h⟩
      · rw [if_neg hid] at heq
        subst heq
        exact ⟨r0, hr0, rfl, fun _ => rfl, fun _ => rfl, fun _ => rfl⟩
  · intro db i now b r' hr'
    rcases updateCategoria_db_shape db i b now with hs | hs
    · rw [hs] at hr'
      exact ⟨r', hr', rfl, rfl⟩
    · obtain ⟨v, hs⟩ := hs
      rw [hs] at hr'
      obtain ⟨r0, hr0, heq⟩ := List.mem_map.mp hr'
      by_cases hid : (r0.id == i) = true
      · rw [if_pos hid] at heq
        subst heq
        exact ⟨r0, hr0, rfl, rfl⟩
      · rw [if_neg hid] at heq
        subst heq
        exact ⟨r0, hr0, rfl, rfl⟩

/-- Witness for C3 on a concrete one-field update of the sample
database. -/
theorem claim_C3_witness :
    (productosUpdateSets [("precio", Value.vNum 60)]).map Prod.fst
      = productoAllowedFields.filter
          (fun f => (getField [("precio", Value.vNum 60)] f).isSome) ∧
    ∀ r' ∈ ((updateProducto dbSample 1 [("precio", Value.vNum 60)] 5).2).productos,
      ∃ r ∈ dbSample.productos, r'.id = r.id ∧
        (getField [("precio", Value.vNum 60)] "nombre" = none →
          r'.nombre = r.nombre) :=
  ⟨claim_C3.1 [("precio", Value.vNum 60)],
   fun r' hr' => by
    obtain ⟨r, hr, hid, _, hnom, _, _, _⟩ :=
      claim_C3.2.2.2.1 dbSample 1 5 [("precio", Value.vNum 60)] r' hr'
    exact ⟨r, hr, hid, hnom⟩⟩

/-- C4 counterexample: in `dbDangling` the single stored product has a
`categoria_id` that matches no category, so the inner join drops it and
product List returns an empty data array although the table is not
empty — List data is not "the array of all rows" for every storage
state. -/
theorem claim_C4_counterexample :
    (listProductos dbDangling).data = some [] ∧ dbDangling.productos ≠ [] :=
  ⟨rfl, by simp [dbDangling]⟩

/-- C4 amended: List always answers 200 ok with an array ordered by id
descending and never errs (an empty table yields an empty array); for
the join-free resources (Category, Ingredient) the array holds all
rows, while for the joined resources (Product, ProductIngredient) it
holds exactly the projections of the rows whose display-join foreign
keys resolve. -/
theorem claim_C4_amended (db : DB) :
    ((listCategorias db).status = 200 ∧ (listCategorias db).ok = true ∧
      ∃ l, (listCategorias db).data = some l ∧ List.Perm l db.categorias ∧
        l.Sorted (fun a b => b.id ≤ a.id)) ∧
    ((listIngredientes db).status = 200 ∧ (listIngredientes db).ok = true ∧
      ∃ l, (listIngredientes db).data = some l ∧ List.Perm l db.ingredientes ∧
        l.Sorted (fun a b => b.id ≤ a.id)) ∧
    ((listProductos db).status = 200 ∧ (listProductos db).ok = true ∧
      ∃ l, (listProductos db).data = some l ∧
        List.Perm l (db.productos.filterMap (productoProjection db)) ∧
        l.Sorted (fun a b => b.id ≤ a.id)) ∧
    ((listProductoIngrediente db).status = 200 ∧
      (listProductoIngrediente db).ok = true ∧
      ∃ l, (listProductoIngrediente db).data = some l ∧
        List.Perm l (db.producto_ingrediente.filterMap
          (productoIngredienteProjection db)) ∧
        l.Sorted (fun a b => b.id ≤ a.id)) := by
  refine ⟨⟨rfl, rfl, ?_⟩, ⟨rfl, rfl, ?_⟩, ⟨rfl, rfl, ?_⟩, ⟨rfl, rfl, ?_⟩⟩
  · exact ⟨_, rfl, sortByIdDesc_perm _ _, sortByIdDesc_sorted _ _⟩
  · exact ⟨_, rfl, sortByIdDesc_perm _ _, sortByIdDesc_sorted _ _⟩
  · refine ⟨_, rfl, ?_, ?_⟩
    · exact List.Perm.filterMap _ (sortByIdDesc_perm _ _)
    · exact sorted_filterMap _ (fun p : Producto => p.id)
        (fun v : ProductoView => v.id)
        (fun a v h => productoProjection_id h) _ (sortByIdDesc_sorted _ _)
  · refine ⟨_, rfl, ?_, ?_⟩
    · exact List.Perm.filterMap _ (sortByIdDesc_perm _ _)
    · exact sorted_filterMap _ (fun r : ProductoIngrediente => r.id)
        (fun v : ProductoIngredienteView => v.id)
        (fun a v h => productoIngredienteProjection_id h) _
        (sortByIdDesc_sorted _ _)

/-- Witness for the amended C4 at the sample database. -/
theorem claim_C4_amended_witness :
    (listCategorias dbSample).status = 200 ∧ (listCategorias dbSample).ok = true :=
  ⟨(claim_C4_amended dbSample).1.1, (claim_C4_amended dbSample).1.2.1⟩

theorem getCategoriaById_data (db : DB) (i : Int) :
    (getCategoriaById db i).data = (readCategoria db i).head? := by
  cases h : readCategoria db i <;> simp [getCategoriaById, h]

theorem getProductoById_data (db : DB) (i : Int) :
    (getProductoById db i).data = (readProducto db i).head? := by
  cases h : readProducto db i <;> simp [getProductoById, h]

theorem getIngredienteById_data (db : DB) (i : Int) :
    (getIngredienteById db i).data = (readIngrediente db i).head? := by
  cases h : readIngrediente db i <;> simp [getIngredienteById, h]

theorem getProductoIngredienteById_data (db : DB) (i : Int) :
    (getProductoIngredienteById db i).data
      = (readProductoIngrediente db i).head? := by
  cases h : readProductoIngrediente db i <;>
    simp [getProductoIngredienteById, h]

theorem updateCategoria_cases (db : DB) (i : Int) (b : Body) (now : Int) :
    (updateCategoria db i b now).1.status ≠ 200 ∨
    (updateCategoria db i b now).1
      = ⟨200, true, "Categoría actualizada",
         (readCategoria (updateCategoria db i b now).2 i).head?⟩ := by
  simp only [updateCategoria]
  split
  · split
    · left; simp
    · split
      · left; simp
      · right; rfl
  · left; simp [validationFailed]

theorem updateProducto_cases (db : DB) (i : Int) (b : Body) (now : Int) :
    (updateProducto db i b now).1.status ≠ 200 ∨
    (updateProducto db i b now).1
      = ⟨200, true, "Producto actualizado",
         (readProducto (updateProducto db i b now).2 i).head?⟩ := by
  simp only [updateProducto]
  split
  · split
    · left; simp
    · split
      · left; simp
      · right; rfl
  · left; simp [validationFailed]

theorem updateIngrediente_cases (db : DB) (i : Int) (b : Body) (now : Int) :
    (updateIngrediente db i b now).1.status ≠ 200 ∨
    (updateIngrediente db i b now).1
      = ⟨200, true, "Ingrediente actualizado",
         (readIngrediente (updateIngrediente db i b now).2 i).head?⟩ := by
  simp only [updateIngrediente]
  split
  · split
    · left; simp
    · split
      · left; simp
      · right; rfl
  · left; simp [validationFailed]

theorem updateProductoIngrediente_cases (db : DB) (i : Int) (b : Body)
    (now : Int) :
    (updateProductoIngrediente db i b now).1.status ≠ 200 ∨
    (updateProductoIngrediente db i b now).1
      = ⟨200, true, "Relación actualizada",
         (readProductoIngrediente (updateProductoIngrediente db i b now).2
           i).head?⟩ := by
  simp only [updateProductoIngrediente]
  split
  · split
    · left; simp
    · split
      · left; simp
      · right; rfl
  · left; simp [validationFailed]

/-- C7: a valid Create answers 201 and a Partial Update that answers
200 returns as data the row re-read from storage through the same
projection (joined labels, server-assigned id and timestamps) as
Get-by-id, not the request body's values. -/
theorem claim_C7 (db : DB) (b : Body) (i newId now : Int) :
    (validCategoriaCreate b = true →
        (createCategoria db b newId now).1.status = 201 ∧
        (createCategoria db b newId now).1.data
          = (getCategoriaById (createCategoria db b newId now).2 newId).data) ∧
    ((updateCategoria db i b now).1.status = 200 →
        (updateCategoria db i b now).1.data
          = (getCategoriaById (updateCategoria db i b now).2 i).data) ∧
    (validProductoCreate b = true →
        (createProducto db b newId now).1.status = 201 ∧
        (createProducto db b newId now).1.data
          = (getProductoById (createProducto db b newId now).2 newId).data) ∧
    ((updateProducto db i b now).1.status = 200 →
        (updateProducto db i b now).1.data
          = (getProductoById (updateProducto db i b now).2 i).data) ∧
    (validIngredienteCreate b = true →
        (createIngrediente db b newId now).1.status = 201 ∧
        (createIngrediente db b newId now).1.data
          = (getIngredienteById (createIngrediente db b newId now).2 newId).data) ∧
    ((updateIngrediente db i b now).1.status = 200 →
        (updateIngrediente db i b now).1.data
          = (getIngredienteById (updateIngrediente db i b now).2 i).data) ∧
    (validProductoIngredienteCreate b = true →
        (createProductoIngrediente db b newId now).1.status = 201 ∧
        (createProductoIngrediente db b newId now).1.data
          = (getProductoIngredienteById
              (createProductoIngrediente db b newId now).2 newId).data) ∧
    ((updateProductoIngrediente db i b now).1.status = 200 →
        (updateProductoIngrediente db i b now).1.data
          = (getProductoIngredienteById
              (updateProductoIngrediente db i b now).2 i).data) := by
  refine ⟨?_, ?_, ?_, ?_, ?_, ?_, ?_, ?_⟩
  · intro hv
    constructor
    · simp [createCategoria, hv]
    · simp [createCategoria, hv, getCategoriaById_data]
  · intro h200
    rcases updateCategoria_cases db i b now with h | h
    · exact absurd h200 h
    · simp [getCategoriaById_data, h]
  · intro hv
    constructor
    · simp [createProducto, hv]
    · simp [createProducto, hv, getProductoById_data]
  · intro h200
    rcases updateProducto_cases db i b now with h | h
    · exact absurd h200 h
    · simp [getProductoById_data, h]
  · intro hv
    constructor
    · simp [createIngrediente, hv]
    · simp [createIngrediente, hv, getIngredienteById_data]
  · intro h200
    rcases updateIngrediente_cases db i b now with h | h
    · exact absurd h200 h
    · simp [getIngredienteById_data, h]
  · intro hv
    constructor
    · simp [createProductoIngrediente, hv]
    · simp [createProductoIngrediente, hv, getProductoIngredienteById_data]
  · intro h200
    rcases updateProductoIngrediente_cases db i b now with h | h
    · exact absurd h200 h
    · simp [getProductoIngredienteById_data, h]

/-- Witness for C7: a concrete valid category creation. -/
theorem claim_C7_witness :
    (createCategoria dbSample [("nombre", Value.vStr "Tacos")] 2 5).1.status = 201 ∧
    (createCategoria dbSample [("nombre", Value.vStr "Tacos")] 2 5).1.data
      = (getCategoriaById
          (createCategoria dbSample [("nombre", Value.vStr "Tacos")] 2 5).2 2).data :=
  (claim_C7 dbSample [("nombre", Value.vStr "Tacos")] 1 2 5).1 rfl

/-- C10: because the Product and ProductIngredient read projections use
inner joins, a stored row whose foreign key (either parent, for the
junction table) resolves to no parent row is omitted from List and
answers 404 from Get-by-id although the row exists; and when the
post-Create or post-Update re-read of either joined resource returns
zero rows, the handler still answers 201 / 200 success with the data
field absent. -/
theorem claim_C10 (db : DB) (b : Body) (newId now i : Int) :
    (∀ p : Producto, db.productos.filter (fun r => r.id == p.id) = [p] →
        db.categorias.find? (fun c => c.id == p.categoria_id) = none →
        (∀ l, (listProductos db).data = some l → ∀ v ∈ l, v.id ≠ p.id) ∧
        (getProductoById db p.id).status = 404) ∧
    (∀ r : ProductoIngrediente,
        db.producto_ingrediente.filter (fun s => s.id == r.id) = [r] →
        (db.productos.find? (fun p => p.id == r.producto_id) = none ∨
         db.ingredientes.find? (fun j => j.id == r.ingrediente_id) = none) →
        (∀ l, (listProductoIngrediente db).data = some l →
          ∀ v ∈ l, v.id ≠ r.id) ∧
        (getProductoIngredienteById db r.id).status = 404) ∧
    (validProductoCreate b = true →
        readProducto (createProducto db b newId now).2 newId = [] →
        (createProducto db b newId now).1
          = ⟨201, true, "Producto creado", none⟩) ∧
    (validProductoIngredienteCreate b = true →
        readProductoIngrediente
            (createProductoIngrediente db b newId now).2 newId = [] →
        (createProductoIngrediente db b newId now).1
          = ⟨201, true, "Relación creada", none⟩) ∧
    (validProductoUpdate b = true → productosUpdateSets b ≠ [] →
        db.productos.filter (fun p => p.id == i) ≠ [] →
        readProducto (updateProducto db i b now).2 i = [] →
        (updateProducto db i b now).1
          = ⟨200, true, "Producto actualizado", none⟩) ∧
    (validProductoIngredienteUpdate b = true →
        productoIngredienteUpdateSets b ≠ [] →
        db.producto_ingrediente.filter (fun r => r.id == i) ≠ [] →
        readProductoIngrediente (updateProductoIngrediente db i b now).2 i = [] →
        (updateProductoIngrediente db i b now).1
          = ⟨200, true, "Relación actualizada", none⟩) := by
  refine ⟨?_, ?_, ?_, ?_, ?_, ?_⟩
  · intro p hfil hfind
    constructor
    · intro l hl v hv hvid
      have hl' : l = (sortByIdDesc (fun q => q.id) db.productos).filterMap
          (productoProjection db) := by
        simp only [listProductos, Option.some_inj] at hl
        exact hl.symm
      subst hl'
      obtain ⟨r, hr, hproj⟩ := List.mem_filterMap.mp hv
      have hrid : v.id = r.id := productoProjection_id hproj
      have hrmem : r ∈ db.productos := (sortByIdDesc_perm _ _).mem_iff.mp hr
      have hrfil : r ∈ db.productos.filter (fun q => q.id == p.id) := by
        rw [List.mem_filter]
        refine ⟨hrmem, ?_⟩
        rw [← hrid, hvid]
        simp
      rw [hfil, List.mem_singleton] at hrfil
      subst hrfil
      simp [productoProjection, hfind] at hproj
    · have hread : readProducto db p.id = [] := by
        simp only [readProducto]
        rw [hfil]
        simp [productoProjection, hfind]
      simp [getProductoById, hread]
  · intro r hfil hfind
    have hnone : productoIngredienteProjection db r = none := by
      rcases hfind with hf | hf
      · simp [productoIngredienteProjection, hf]
      · cases h1 : db.productos.find? (fun p => p.id == r.producto_id) <;>
          simp [productoIngredienteProjection, hf, h1]
    constructor
    · intro l hl v hv hvid
      have hl' : l = (sortByIdDesc (fun q => q.id)
          db.producto_ingrediente).filterMap
            (productoIngredienteProjection db) := by
        simp only [listProductoIngrediente, Option.some_inj] at hl
        exact hl.symm
      subst hl'
      obtain ⟨s, hs, hproj⟩ := List.mem_filterMap.mp hv
      have hsid : v.id = s.id := productoIngredienteProjection_id hproj
      have hsmem : s ∈ db.producto_ingrediente :=
        (sortByIdDesc_perm _ _).mem_iff.mp hs
      have hsfil : s ∈ db.producto_ingrediente.filter (fun q => q.id == r.id) := by
        rw [List.mem_filter]
        refine ⟨hsmem, ?_⟩
        rw [← hsid, hvid]
        simp
      rw [hfil, List.mem_singleton] at hsfil
      subst hsfil
      rw [hnone] at hproj
      exact absurd hproj (by simp)
    · have hread : readProductoIngrediente db r.id = [] := by
        simp only [readProductoIngrediente]
        rw [hfil]
        simp [hnone]
      simp [getProductoIngredienteById, hread]
  · intro hv hread
    simp only [createProducto, hv, if_true] at hread ⊢
    simp [hread]
  · intro hv hread
    simp only [createProductoIngrediente, hv, if_true] at hread ⊢
    simp [hread]
  · intro hv hne hfilne hread
    have hL : ((productosUpdateSets b).length == 0) = false := by
      cases h : productosUpdateSets b with
      | nil => exact absurd h hne
      | cons x xs => rfl
    have hA : ((db.productos.filter (fun p => p.id == i)).length == 0) = false := by
      cases h : db.productos.filter (fun p => p.id == i) with
      | nil => exact absurd h hfilne
      | cons x xs => rfl
    simp only [updateProducto, hv, hL, hA, if_true, Bool.false_eq_true,
      if_false] at hread ⊢
    simpa using hread
  · intro hv hne hfilne hread
    have hL : ((productoIngredienteUpdateSets b).length == 0) = false := by
      cases h : productoIngredienteUpdateSets b with
      | nil => exact absurd h hne
      | cons x xs => rfl
    have hA : ((db.producto_ingrediente.filter
        (fun r => r.id == i)).length == 0) = false := by
      cases h : db.producto_ingrediente.filter (fun r => r.id == i) with
      | nil => exact absurd h hfilne
      | cons x xs => rfl
    simp only [updateProductoIngrediente, hv, hL, hA, if_true,
      Bool.false_eq_true, if_false] at hread ⊢
    simpa using hread

/-- Witness for C10: the dangling product and the dangling junction row
are invisible to Get-by-id, creating a product into an empty database
(no category to join) answers 201 with no data, and updating the
dangling junction row (re-read empty, both parents missing) answers
200 with no data. -/
theorem claim_C10_witness :
    (getProductoById dbDangling 1).status = 404 ∧
    (getProductoIngredienteById dbDanglingPI 1).status = 404 ∧
    (createProducto dbEmpty bodyDisponibleFalse 1 7).1
      = ⟨201, true, "Producto creado", none⟩ ∧
    (updateProductoIngrediente dbDanglingPI 1
        [("cantidad_usada", Value.vNum 2)] 7).1
      = ⟨200, true, "Relación actualizada", none⟩ := by
  refine ⟨?_, ?_, ?_, ?_⟩
  · exact ((claim_C10 dbDangling bodyDisponibleFalse 1 7 1).1 productoDangling
      rfl rfl).2
  · exact ((claim_C10 dbDanglingPI bodyDisponibleFalse 1 7 1).2.1
      productoIngredienteDangling rfl (Or.inl rfl)).2
  · exact (claim_C10 dbEmpty bodyDisponibleFalse 1 7 1).2.2.1 (by decide) rfl
  · exact (claim_C10 dbDanglingPI [("cantidad_usada", Value.vNum 2)] 1 7 1).2.2.2.2.2
      (by decide) (by decide) (by decide) rfl

end PracticaFinalWeb
